import Mathlib

/-!
Verification of the traffic-simulation engine of this repository.

The definitions below are shallow embeddings of the JavaScript sources:

* `src/utils/Constants.js`   — `GameConfig` constants,
* `src/utils/Helpers.js`     — grid helpers (`isValidGridPosition`, `getAdjacentPositions`),
* `src/utils/PathFinder.js`  — pathfinding grid, `updateGrid`, `findPath`,
  `findPathWithEntrances`, `findNearestValidPosition`,
* `src/entities/Cell.js`     — `Road.getPathfindingConnections`,
  `Road.getPositionInDirection`, `Road.getDirectionToPosition`,
* `src/entities/Car.js`      — the `Car` state machine (`updateMoving`,
  `updateWaiting`, `moveToCell`, `onMoveComplete`, `setPath`, `checkCollision`,
  `checkIfReachedExit`, `triggerFailure`),
* `src/data/GameState.js`    — roads/budget/simulation state
  (`placeRoad`, `removeRoad`, `updateRoadDirections`, `startSimulation`),
* `src/managers/CarManager.js` — occupancy index, `handleCollisionCheck`,
  `handlePathRequest`, `updatePathfindingGrid`, `getSuccessRate`,
  `checkEndConditions`.

JavaScript numbers holding grid coordinates are embedded as `Int` (entrance
cells sit at row/col `-1` or `rows`/`cols`), millisecond times and counters as
`Nat`, and the success-rate arithmetic as `ℚ` (for the inputs appearing below
the JavaScript double computations are exact, so `ℚ` agrees with the engine).
Rendering, tween and event-emitter plumbing carries no simulation state and is
not modelled; where a tween merely delays a committed move we keep its target
in the `currentTween` field and model its completion callback separately
(`Car.onMoveComplete`), following the source.
-/

namespace Traffic

/-- A grid position `(row, col)`; identity by value, as in the source where
cells are keyed by the string `"row,col"` (`gridKey` in `Helpers.js`). -/
structure Pos where
  row : Int
  col : Int
deriving DecidableEq

/-- The eight arrow symbols of `Directions` in `Constants.js`. -/
inductive Direction where
  | up
  | down
  | left
  | right
  | upRight
  | upLeft
  | downRight
  | downLeft
deriving DecidableEq

/-- A road record: its cell plus the ordered direction annotations
(`{row, col, directions}` as stored in `GameState.roads` / `Road.getRoadData`). -/
structure Road where
  row : Int
  col : Int
  directions : List Direction
deriving DecidableEq

-- `GameConfig` from `Constants.js` (the fields the simulation core reads).
namespace GameConfig

/-- `maxWaitTime: 10000` — max wait time before car fails (ms). -/
def maxWaitTime : Nat := 10000

/-- `successThreshold: 0.8` — fraction of cars that must reach the exit. -/
def successThreshold : ℚ := 8/10

/-- `roadCost: 1000` — cost to place one road tile. -/
def roadCost : Int := 1000

end GameConfig

/-- `isValidGridPosition` from `Helpers.js`: bounds check against the grid. -/
def isValidGridPosition (row col maxRows maxCols : Int) : Bool :=
  decide (0 ≤ row) && decide (row < maxRows) && decide (0 ≤ col) && decide (col < maxCols)

/-- `getAdjacentPositions` from `Helpers.js`: the four orthogonal neighbours,
in source order up, down, left, right. -/
def getAdjacentPositions (row col : Int) : List Pos :=
  [⟨row - 1, col⟩, ⟨row + 1, col⟩, ⟨row, col - 1⟩, ⟨row, col + 1⟩]

/-! ## Road connection semantics (`Road` in `Cell.js`) -/

/-- A `{row, col, direction}` record returned by
`Road.getPathfindingConnections` in `Cell.js`. -/
structure RoadConn where
  row : Int
  col : Int
  direction : Option Direction
deriving DecidableEq

/-- `Road.getPositionInDirection` (`Cell.js`): orthogonal directions move one
cell; the diagonal cases fall through to `null`. -/
def Road.getPositionInDirection (r : Road) : Direction → Option Pos
  | .up => some ⟨r.row - 1, r.col⟩
  | .down => some ⟨r.row + 1, r.col⟩
  | .left => some ⟨r.row, r.col - 1⟩
  | .right => some ⟨r.row, r.col + 1⟩
  | _ => none

/-- `Road.getDirectionToPosition` (`Cell.js`). -/
def Road.getDirectionToPosition (r : Road) (targetRow targetCol : Int) : Option Direction :=
  let deltaRow := targetRow - r.row
  let deltaCol := targetCol - r.col
  if deltaRow = -1 ∧ deltaCol = 0 then some .up
  else if deltaRow = 1 ∧ deltaCol = 0 then some .down
  else if deltaRow = 0 ∧ deltaCol = -1 then some .left
  else if deltaRow = 0 ∧ deltaCol = 1 then some .right
  else none

/-- `Road.getPathfindingConnections` (`Cell.js` lines 888–914): an open road
(no directions) connects to all four orthogonal neighbours; a restricted road
connects only along its stored directions. -/
def Road.getPathfindingConnections (r : Road) : List RoadConn :=
  if r.directions.length = 0 then
    (getAdjacentPositions r.row r.col).map fun pos =>
      ⟨pos.row, pos.col, r.getDirectionToPosition pos.row pos.col⟩
  else
    r.directions.filterMap fun direction =>
      (r.getPositionInDirection direction).map fun targetPos =>
        ⟨targetPos.row, targetPos.col, some direction⟩

/-! ## Statistics and end conditions (`CarManager.js`) -/

/-- The counters of `CarManager.stats` used by the outcome evaluation
(the per-type maps are not read by `checkEndConditions`). -/
structure CMStats where
  totalSpawned : Nat
  totalReachedExit : Nat
  totalFailed : Nat
deriving DecidableEq

/-- The verdict of `CarManager.checkEndConditions` (`type: 'won' | 'lost'`;
the human-readable `reason` string is presentation only). -/
inductive EndCondition where
  | won
  | lost
deriving DecidableEq

/-- `CarManager.getSuccessRate` (`CarManager.js` lines 490–496): percentage of
terminated cars that reached the exit, `0` when none terminated. -/
def CarManager.getSuccessRate (s : CMStats) : ℚ :=
  let total := s.totalReachedExit + s.totalFailed
  if total = 0 then 0 else ((s.totalReachedExit : ℚ) / (total : ℚ)) * 100

/-- The minimum sample size in `CarManager.checkEndConditions`:
`this.levelData ? this.levelData.cars.length * 3 : 10`. -/
def CarManager.minCarsToCheck : Option Nat → Nat
  | some numCarTypes => numCarTypes * 3
  | none => 10

/-- `CarManager.checkEndConditions` (`CarManager.js` lines 561–582): once the
terminated count reaches the minimum sample size, report `won` when the
success rate reaches the threshold, otherwise `lost` when failures outnumber
successes. `numCarTypes` is `levelData.cars.length` when level data is set. -/
def CarManager.checkEndConditions (s : CMStats) (numCarTypes : Option Nat) :
    Option EndCondition :=
  let totalCars := s.totalReachedExit + s.totalFailed
  if totalCars ≥ CarManager.minCarsToCheck numCarTypes then
    let successRate := CarManager.getSuccessRate s / 100
    if successRate ≥ GameConfig.successThreshold then some .won
    else if s.totalFailed > s.totalReachedExit then some .lost
    else none
  else none

/-! ## Game state (`GameState.js`) -/

/-- `GameStates` from `Constants.js`. -/
inductive GState where
  | building
  | simulating
  | won
  | lost
deriving DecidableEq

/-- `GameState.stats` (`carsSpawned` / `carsReachedExit` / `carsFailed` plus
the start/end timestamps set from `Date.now()`). -/
structure GSStats where
  carsSpawned : Nat
  carsReachedExit : Nat
  carsFailed : Nat
  simulationStartTime : Option Nat
  simulationEndTime : Option Nat
deriving DecidableEq

/-- The slice of the `GameState` singleton that the simulation core reads and
writes: budget, mode flags, the placed roads (insertion-ordered, keyed by
cell) and the pathfinding dirty flag. UI fields (tool, hovered cell, …) and
the event-listener table are presentation plumbing and not modelled. -/
structure GameStateST where
  budget : Int
  gameState : GState
  isSimulating : Bool
  roads : List (Pos × List Direction)
  stats : GSStats
  pathfindingGridDirty : Bool
deriving DecidableEq

/-- The fresh statistics record written by `GameState.resetStats`. -/
def GameState.resetStats : GSStats :=
  { carsSpawned := 0, carsReachedExit := 0, carsFailed := 0,
    simulationStartTime := none, simulationEndTime := none }

/-- Key lookup in the insertion-ordered road map (`this.roads.get(key)`). -/
def findRoad (roads : List (Pos × List Direction)) (p : Pos) : Option (List Direction) :=
  match roads.find? (fun e => decide (e.1 = p)) with
  | some e => some e.2
  | none => none

/-- `GameState.canAfford`. -/
def GameState.canAfford (gs : GameStateST) (cost : Int) : Bool :=
  decide (gs.budget ≥ cost)

/-- `GameState.placeRoad` (`GameState.js` lines 184–218): rejected while
simulating, when unaffordable, or when a road already occupies the cell;
otherwise spends the budget, inserts an open road and marks the pathfinding
grid dirty. (The pass-through `roadData` argument is `{}` at the call site in
`InputManager` and is not modelled.) -/
def GameState.placeRoad (gs : GameStateST) (row col : Int) : Bool × GameStateST :=
  if gs.isSimulating then (false, gs)
  else if !(GameState.canAfford gs GameConfig.roadCost) then (false, gs)
  else if (findRoad gs.roads ⟨row, col⟩).isSome then (false, gs)
  else
    (true, { gs with
      budget := gs.budget - GameConfig.roadCost,
      roads := gs.roads ++ [(⟨row, col⟩, [])],
      pathfindingGridDirty := true })

/-- `GameState.removeRoad` (`GameState.js` lines 226–247): rejected while
simulating or when no road is present; otherwise deletes the road, refunds the
cost and marks the grid dirty. -/
def GameState.removeRoad (gs : GameStateST) (row col : Int) : Bool × GameStateST :=
  if gs.isSimulating then (false, gs)
  else if (findRoad gs.roads ⟨row, col⟩).isNone then (false, gs)
  else
    (true, { gs with
      budget := gs.budget + GameConfig.roadCost,
      roads := gs.roads.filter (fun e => decide (e.1 ≠ Pos.mk row col)),
      pathfindingGridDirty := true })

/-- `GameState.updateRoadDirections` (`GameState.js` lines 256–269): requires a
road at the cell — but, unlike `placeRoad`/`removeRoad`, has no
`isSimulating` guard — then replaces its direction list and marks the grid
dirty. -/
def GameState.updateRoadDirections (gs : GameStateST) (row col : Int)
    (directions : List Direction) : Bool × GameStateST :=
  match findRoad gs.roads ⟨row, col⟩ with
  | none => (false, gs)
  | some _ =>
    (true, { gs with
      roads := gs.roads.map (fun e =>
        if e.1 = Pos.mk row col then (e.1, directions) else e),
      pathfindingGridDirty := true })

/-- `GameState.startSimulation` (`GameState.js` lines 339–358): rejected when
already simulating or when no roads are placed; otherwise switches to
simulating mode, resets the statistics and records the start time (`now`
stands for `Date.now()`). -/
def GameState.startSimulation (gs : GameStateST) (now : Nat) : Bool × GameStateST :=
  if gs.isSimulating then (false, gs)
  else if gs.roads.length = 0 then (false, gs)
  else
    (true, { gs with
      isSimulating := true,
      gameState := .simulating,
      stats := { GameState.resetStats with simulationStartTime := some now } })

/-! ## Pathfinding (`PathFinder.js`) -/

/-- The pathfinding grid built by `PathFinder.updateGrid`: dimensions plus the
set (insertion-ordered list) of cells marked walkable. In the source this is a
`PF.Grid` whose cells are all blocked except those set walkable. -/
structure PFGrid where
  gridWidth : Int
  gridHeight : Int
  walkableCells : List Pos
deriving DecidableEq

/-- `grid.isWalkableAt` on the grid built by `updateGrid`: only cells
explicitly set walkable are walkable. -/
def PFGrid.isWalkableAt (g : PFGrid) (row col : Int) : Bool :=
  decide (Pos.mk row col ∈ g.walkableCells)

/-- `PathFinder.updateGrid` (`PathFinder.js` lines 76–117): reset every cell to
blocked, mark each in-bounds road cell walkable, then re-block obstacle cells.
Note the road's `directions` list is never consulted — walkability is the only
information the grid records. (An out-of-bounds obstacle entry is skipped in
the source; it also cannot coincide with an in-bounds road cell, so plain list
membership is an exact embedding of the obstacle re-blocking loop.) -/
def PathFinder.updateGrid (roads : List Road) (obstacles : List Pos)
    (gridRows gridCols : Int) : PFGrid :=
  { gridWidth := gridCols,
    gridHeight := gridRows,
    walkableCells :=
      (roads.filterMap fun r =>
        if isValidGridPosition r.row r.col gridRows gridCols
        then some (Pos.mk r.row r.col) else none).filter
        (fun p => decide (p ∉ obstacles)) }

/-- Modelled from the spec: the shortest-path search itself is performed by the
external `PathFinding.js` library (`PF.AStarFinder`, no diagonals, unit
weights), which is not part of this repository; per the spec it is "a
breadth-first or uniform-cost search appropriate to unit weights" with
deterministic tie-breaking. We embed it as a fuel-bounded breadth-first search
over the walkable cells. The queue holds reversed partial paths; cells are
marked visited when enqueued. -/
def PathFinder.bfsAux (g : PFGrid) (goal : Pos) :
    Nat → List (List Pos) → List Pos → Option (List Pos)
  | 0, _, _ => none
  | _ + 1, [], _ => none
  | fuel + 1, path :: queue, visited =>
    match path.head? with
    | none => PathFinder.bfsAux g goal fuel queue visited
    | some p =>
      if p = goal then some path.reverse
      else
        let nbrs := (getAdjacentPositions p.row p.col).filter fun n =>
          g.isWalkableAt n.row n.col && !(decide (n ∈ visited))
        PathFinder.bfsAux g goal fuel (queue ++ nbrs.map (fun n => n :: path))
          (visited ++ nbrs)

/-- `PathFinder.findPath` (`PathFinder.js` lines 127–180): validates that both
endpoints are in bounds and walkable (returning `none` otherwise, as the
source returns `null`), then runs the search; a found non-empty path is
returned as a `{row, col}` sequence. The fuel bound exceeds the number of
cells the search can ever enqueue. -/
def PathFinder.findPath (g : PFGrid) (startRow startCol endRow endCol : Int) :
    Option (List Pos) :=
  if !(isValidGridPosition startRow startCol g.gridHeight g.gridWidth) then none
  else if !(isValidGridPosition endRow endCol g.gridHeight g.gridWidth) then none
  else if !(g.isWalkableAt startRow startCol) then none
  else if !(g.isWalkableAt endRow endCol) then none
  else
    match PathFinder.bfsAux g ⟨endRow, endCol⟩ (g.walkableCells.length + 2)
        [[⟨startRow, startCol⟩]] [⟨startRow, startCol⟩] with
    | some path => if path.length > 0 then some path else none
    | none => none

/-- An entrance/exit-aware position `{row, col, isEntrance, side}` as produced
by `processEntranceCoordinates` in `Helpers.js` (the decorative `side` tag is
not read by the pathfinding code and is omitted). -/
structure EntrancePos where
  row : Int
  col : Int
  isEntrance : Bool
deriving DecidableEq

/-- The offsets scanned at one radius of the expanding search in
`PathFinder.findNearestValidPosition`: `deltaRow` from `-radius` upward, then
`deltaCol` from `-radius` upward, keeping only offsets on the radius boundary
(the source `continue`s when both `|deltaRow|` and `|deltaCol|` differ from
the radius). -/
def ringOffsets (radius : Nat) : List (Int × Int) :=
  ((List.range (2 * radius + 1)).map fun i => (i : Int) - radius).flatMap fun deltaRow =>
    ((List.range (2 * radius + 1)).map fun j => (j : Int) - radius).filterMap fun deltaCol =>
      if deltaRow.natAbs = radius ∨ deltaCol.natAbs = radius
      then some (deltaRow, deltaCol) else none

/-- `PathFinder.findNearestValidPosition` (`PathFinder.js` lines 224–257): if
the position itself is in bounds and walkable return it; otherwise scan
expanding rings of radius `1 … max(gridRows, gridCols)` and return the first
in-bounds walkable cell in scan order. -/
def PathFinder.findNearestValidPosition (g : PFGrid) (position : EntrancePos)
    (gridRows gridCols : Int) : Option Pos :=
  if isValidGridPosition position.row position.col gridRows gridCols ∧
      g.isWalkableAt position.row position.col then
    some ⟨position.row, position.col⟩
  else
    ((List.range (max gridRows gridCols).toNat).map (· + 1)).findSome? fun radius =>
      (ringOffsets radius).findSome? fun d =>
        let testRow := position.row + d.1
        let testCol := position.col + d.2
        if isValidGridPosition testRow testCol gridRows gridCols ∧
            g.isWalkableAt testRow testCol then
          some ⟨testRow, testCol⟩
        else none

/-- `PathFinder.findPathWithEntrances` (`PathFinder.js` lines 190–215): an
entrance/exit endpoint is first replaced by `findNearestValidPosition`
(`none` when that search fails), then the ordinary `findPath` runs between the
replaced endpoints. -/
def PathFinder.findPathWithEntrances (g : PFGrid) (start goal : EntrancePos)
    (gridRows gridCols : Int) : Option (List Pos) :=
  let actualStart : Option Pos :=
    if start.isEntrance
    then PathFinder.findNearestValidPosition g start gridRows gridCols
    else some ⟨start.row, start.col⟩
  match actualStart with
  | none => none
  | some s =>
    let actualEnd : Option Pos :=
      if goal.isEntrance
      then PathFinder.findNearestValidPosition g goal gridRows gridCols
      else some ⟨goal.row, goal.col⟩
    match actualEnd with
    | none => none
    | some e => PathFinder.findPath g s.row s.col e.row e.col

/-! ## The vehicle state machine (`Car.js`) -/

/-- `CarStates` from `Constants.js`. -/
inductive CarState where
  | spawning
  | moving
  | waiting
  | reachedExit
  | failed
deriving DecidableEq

/-- The logical state of a `Car` (`Car.js`): identity, committed grid cell,
assigned exit, path and cursor, movement/blocking flags, state and wait
timers. Rendering fields (graphics, depth) are presentation only; the Phaser
tween that animates a committed move is kept as its target cell in
`currentTween`, with its completion callback modelled by `Car.onMoveComplete`.
Millisecond timers are `Nat`. -/
structure Car where
  id : Nat
  gridRow : Int
  gridCol : Int
  target : EntrancePos
  path : List Pos
  pathIndex : Nat
  hasPath : Bool
  needsNewPath : Bool
  isMoving : Bool
  isBlocked : Bool
  blockedBy : Option Nat
  currentTween : Option Pos
  state : CarState
  waitTime : Nat
  totalWaitTime : Nat
  failReason : Option String
deriving DecidableEq

/-- `Car.checkCollision` (`Car.js` lines 890–899): the method emits a
`carCheckCollision` event, then ignores the emitted value and returns `false`
unconditionally ("For now, assume no collision (CarManager will handle
this)"). -/
def Car.checkCollision (_car : Car) (_targetCell : Pos) : Bool :=
  false

/-- `Car.moveToCell` (`Car.js`): commits to a move by starting the movement
tween toward the target cell. -/
def Car.moveToCell (c : Car) (targetCell : Pos) : Car :=
  { c with isMoving := true, currentTween := some targetCell }

/-- `Car.reachDestination` (`Car.js`): enter the terminal `reachedExit` state,
stopping any movement. -/
def Car.reachDestination (c : Car) : Car :=
  { c with state := .reachedExit, currentTween := none, isMoving := false }

/-- `Car.triggerFailure` (`Car.js`): enter the terminal `failed` state with
the given reason, stopping any movement. -/
def Car.triggerFailure (c : Car) (reason : String) : Car :=
  { c with state := .failed, currentTween := none, isMoving := false,
           failReason := some reason }

/-- `Car.isNearTarget` (`Car.js`): when the target is an entrance/exit, being
within Manhattan distance 1 counts as arrival. -/
def Car.isNearTarget (c : Car) : Bool :=
  if c.target.isEntrance then
    decide ((c.gridRow - c.target.row).natAbs + (c.gridCol - c.target.col).natAbs ≤ 1)
  else false

/-- `Car.checkIfReachedExit` (`Car.js`): arrival on (or, for entrance targets,
next to) the target cell reaches the destination. -/
def Car.checkIfReachedExit (c : Car) : Car :=
  let atTarget := c.gridRow = c.target.row ∧ c.gridCol = c.target.col
  if atTarget ∨ c.isNearTarget then c.reachDestination else c

/-- `Car.onMoveComplete` (`Car.js`): the tween-completion callback — commit
the new grid cell, advance the path cursor, reset the wait timer and check for
arrival. -/
def Car.onMoveComplete (c : Car) (targetCell : Pos) : Car :=
  Car.checkIfReachedExit
    { c with isMoving := false, currentTween := none,
             gridRow := targetCell.row, gridCol := targetCell.col,
             pathIndex := c.pathIndex + 1, waitTime := 0 }

/-- `Car.setPath` (`Car.js`): a non-empty path is adopted and the car resumes
moving; a missing or empty path leaves the car pathless and waiting. -/
def Car.setPath (c : Car) (path : Option (List Pos)) : Car :=
  match path with
  | some p =>
    if p.length > 0 then
      { c with path := p, pathIndex := 0, hasPath := true, state := .moving }
    else
      { c with path := [], pathIndex := 0, hasPath := false, state := .waiting }
  | none =>
    { c with path := [], pathIndex := 0, hasPath := false, state := .waiting }

/-- The trailing checks of `Car.updateMoving` (`Car.js`), reached whenever the
method does not early-return: exhausted path ⇒ destination reached; missing or
empty path ⇒ waiting. -/
def Car.updateMovingTail (c : Car) : Car :=
  let c1 := if c.hasPath ∧ c.pathIndex ≥ c.path.length then c.reachDestination else c
  if ¬c1.hasPath ∨ c1.path.length = 0 then { c1 with state := .waiting } else c1

/-- `Car.updateMoving` (`Car.js` lines 732–762): request a path when flagged
(the synchronous `carRequestPath` round-trip through `CarManager` delivers
`pathResponse` to `setPath`); then, when idle with path steps remaining,
either transition to waiting on a detected collision (early return) or commit
the move to the next cell; finally run the arrival/no-path checks. -/
def Car.updateMoving (c0 : Car) (pathResponse : Option (List Pos)) : Car :=
  let c := if c0.needsNewPath
           then Car.setPath { c0 with needsNewPath := false } pathResponse
           else c0
  if c.hasPath ∧ c.isMoving = false ∧ c.pathIndex < c.path.length then
    match c.path[c.pathIndex]? with
    | some nextCell =>
      if c.checkCollision nextCell then
        { c with state := .waiting, isBlocked := true }
      else
        Car.updateMovingTail (c.moveToCell nextCell)
    | none => Car.updateMovingTail c
  else Car.updateMovingTail c

/-- `Car.updateWaiting` (`Car.js` lines 769–796): accumulate wait time; if
blocked with path steps remaining and the next cell no longer collides, resume
moving and reset the wait timer (early return). Otherwise fail with reason
`"timeout"` once `waitTime` exceeds `maxWaitTime`, and — after 2 s of waiting
— flag a fresh path request and reset `waitTime` to 0. -/
def Car.updateWaiting (c0 : Car) (delta : Nat) : Car :=
  let c := { c0 with waitTime := c0.waitTime + delta,
                     totalWaitTime := c0.totalWaitTime + delta }
  let resumed : Option Car :=
    if c.isBlocked ∧ 0 < c.path.length ∧ c.pathIndex < c.path.length then
      match c.path[c.pathIndex]? with
      | some nextCell =>
        if c.checkCollision nextCell = false then
          some { c with isBlocked := false, blockedBy := none,
                        state := .moving, waitTime := 0 }
        else none
      | none => none
    else none
  match resumed with
  | some c1 => c1
  | none =>
    let c1 := if c.waitTime > GameConfig.maxWaitTime
              then c.triggerFailure "timeout" else c
    if c1.waitTime > 2000 then { c1 with needsNewPath := true, waitTime := 0 }
    else c1

/-! ## Occupancy index and collision handling (`CarManager.js`) -/

/-- The car-tracking slice of `CarManager`: the live cars and the occupancy
index `carsByPosition` mapping a cell to the ids of the cars recorded there. -/
structure CarManagerST where
  cars : List Car
  carsByPosition : List (Pos × List Nat)
deriving DecidableEq

/-- `CarManager.getCarsAtPosition`: the car instances whose ids the occupancy
index records at the cell. -/
def CarManager.getCarsAtPosition (m : CarManagerST) (row col : Int) : List Car :=
  match m.carsByPosition.find? (fun e => decide (e.1 = Pos.mk row col)) with
  | none => []
  | some e => e.2.filterMap fun i => m.cars.find? (fun c => decide (c.id = i))

/-- `CarManager.handleCollisionCheck` (`CarManager.js` lines 368–384): a
collision is detected exactly when the occupancy index records a car other
than the requester at the target cell. (The handler also stores the blocking
car's id in `car.blockedBy` for diagnostics; its boolean result is what the
claim concerns — and it never reaches `Car.checkCollision`, whose
`scene.events.emit` return value is discarded.) -/
def CarManager.handleCollisionCheck (m : CarManagerST) (car : Car)
    (targetCell : Pos) : Bool :=
  let carsAtTarget := CarManager.getCarsAtPosition m targetCell.row targetCell.col
  let otherCars := carsAtTarget.filter fun otherCar => decide (otherCar.id ≠ car.id)
  !otherCars.isEmpty

/-! ## Dirty-flag invalidation (`GameState.js` + `CarManager.js`) -/

/-- `GameState.isPathfindingGridDirty`. -/
def GameState.isPathfindingGridDirty (gs : GameStateST) : Bool :=
  gs.pathfindingGridDirty

/-- `GameState.markPathfindingGridClean`. -/
def GameState.markPathfindingGridClean (gs : GameStateST) : GameStateST :=
  { gs with pathfindingGridDirty := false }

/-- The `GameState.roads` map as the road list handed to
`PathFinder.updateGrid`. (In the source the list is read back through
`GridManager.getRoadsData()`, whose key set `InputManager` keeps in lockstep
with `GameState.roads`.) -/
def GameStateST.roadList (gs : GameStateST) : List Road :=
  gs.roads.map fun e => { row := e.1.row, col := e.1.col, directions := e.2 }

/-- The fixed level environment a rebuild reads: permanently-blocked cells and
grid dimensions (`levelData.uneditableCells`, `getGridDimensions()`). -/
structure PFEnv where
  obstacles : List Pos
  rows : Int
  cols : Int
deriving DecidableEq

/-- The routing state owned jointly by `GameState` (dirty flag) and the
`pathFinder` singleton (its grid). -/
structure SimSystem where
  gs : GameStateST
  pfGrid : PFGrid
deriving DecidableEq

/-- `CarManager.updatePathfindingGrid` (`CarManager.js` lines 125–135):
rebuild the pathfinder grid from the current road set and mark the game
state's grid clean. -/
def CarManager.updatePathfindingGrid (env : PFEnv) (sys : SimSystem) : SimSystem :=
  { gs := GameState.markPathfindingGridClean sys.gs,
    pfGrid := PathFinder.updateGrid sys.gs.roadList env.obstacles env.rows env.cols }

/-- `CarManager.handlePathRequest` (`CarManager.js` lines 324–344): when the
grid is flagged dirty, first rebuild it (clearing the flag), then answer the
query. (The source then hands the result to `car.setPath`; path delivery is
modelled by `Car.setPath` separately.) -/
def CarManager.handlePathRequest (env : PFEnv) (sys : SimSystem)
    (start goal : EntrancePos) : Option (List Pos) × SimSystem :=
  let sys1 := if GameState.isPathfindingGridDirty sys.gs
              then CarManager.updatePathfindingGrid env sys
              else sys
  (PathFinder.findPathWithEntrances sys1.pfGrid start goal env.rows env.cols, sys1)

/-- A road edit issued by the input layer (`§6` of the spec): add-road,
remove-road, or set-directions, each applied through the corresponding
`GameState` operation. -/
inductive EditOp where
  | place (row col : Int)
  | remove (row col : Int)
  | setDirections (row col : Int) (directions : List Direction)
deriving DecidableEq

/-- Apply one edit to the game state (keeping the state component of the
`GameState` operation's result). -/
def GameState.applyEdit (gs : GameStateST) : EditOp → GameStateST
  | .place row col => (GameState.placeRoad gs row col).2
  | .remove row col => (GameState.removeRoad gs row col).2
  | .setDirections row col ds => (GameState.updateRoadDirections gs row col ds).2

/-- Apply a sequence of edits; edits touch only the game state, never the
pathfinder's cached grid. -/
def SimSystem.applyEdits (sys : SimSystem) (ops : List EditOp) : SimSystem :=
  { sys with gs := ops.foldl GameState.applyEdit sys.gs }

/-- The cache invariant of the dirty-flag scheme: whenever the flag is clear,
the pathfinder's cached grid is the grid built from the current road set. -/
def gridConsistent (env : PFEnv) (sys : SimSystem) : Prop :=
  sys.gs.pathfindingGridDirty = false →
    sys.pfGrid = PathFinder.updateGrid sys.gs.roadList env.obstacles env.rows env.cols

/-! ## Concrete scenarios used by the theorems below -/

/-- A vertical road corridor in a 3×1 grid whose middle road carries the
single direction annotation `[right]`. -/
def roadsC2 : List Road := [⟨0, 0, []⟩, ⟨1, 0, [.right]⟩, ⟨2, 0, []⟩]

/-- The pathfinding grid built from `roadsC2`. -/
def gridC2 : PFGrid := PathFinder.updateGrid roadsC2 [] 3 1

/-- A vertical road corridor in column 0 of a 3×2 grid, all roads open. -/
def roadsC6 : List Road := [⟨0, 0, []⟩, ⟨1, 0, []⟩, ⟨2, 0, []⟩]

/-- The pathfinding grid built from `roadsC6`. -/
def gridC6 : PFGrid := PathFinder.updateGrid roadsC6 [] 3 2

/-- A car parked at cell `(1,0)` (its spawn cell, so the occupancy index
records it there). -/
def carA : Car :=
  { id := 0, gridRow := 1, gridCol := 0, target := ⟨5, 5, false⟩,
    path := [], pathIndex := 0, hasPath := false, needsNewPath := false,
    isMoving := false, isBlocked := false, blockedBy := none,
    currentTween := none, state := .waiting, waitTime := 0,
    totalWaitTime := 0, failReason := none }

/-- A moving car at `(1,1)` whose next path cell is `(1,0)` — the cell
`carA` occupies. -/
def carB : Car :=
  { id := 1, gridRow := 1, gridCol := 1, target := ⟨5, 5, false⟩,
    path := [⟨1, 0⟩], pathIndex := 0, hasPath := true, needsNewPath := false,
    isMoving := false, isBlocked := false, blockedBy := none,
    currentTween := none, state := .moving, waitTime := 0,
    totalWaitTime := 0, failReason := none }

/-- The car manager tracking `carA` and `carB`, with the occupancy index as
`CarManager.addCar`/`updateCarPosition` populate it at spawn time. -/
def mgrC1 : CarManagerST :=
  { cars := [carA, carB],
    carsByPosition := [(⟨1, 0⟩, [0]), (⟨1, 1⟩, [1])] }

/-- A car that never received a path (`setPath(null)` left it waiting with an
empty path) — e.g. spawned with zero roads placed. -/
def pathlessCar : Car :=
  { id := 0, gridRow := 1, gridCol := -10, target := ⟨1, 5, true⟩,
    path := [], pathIndex := 0, hasPath := false, needsNewPath := false,
    isMoving := false, isBlocked := false, blockedBy := none,
    currentTween := none, state := .waiting, waitTime := 0,
    totalWaitTime := 0, failReason := none }

/-- A freshly reset game state: no roads, not simulating, grid flagged dirty
(as `GameState.reset` leaves it). -/
def gsW : GameStateST :=
  { budget := 10000, gameState := .building, isSimulating := false,
    roads := [], stats := GameState.resetStats, pathfindingGridDirty := true }

/-- A routing system over `gsW` with an arbitrary stale pathfinder grid. -/
def sysW : SimSystem := { gs := gsW, pfGrid := ⟨0, 0, []⟩ }

/-- A 3×2 level with no permanently-blocked cells. -/
def envW : PFEnv := { obstacles := [], rows := 3, cols := 2 }

/-- A running simulation whose road map holds one open road at `(2,3)`. -/
def gsSimW : GameStateST :=
  { budget := 9000, gameState := .simulating, isSimulating := true,
    roads := [(⟨2, 3⟩, [])], stats := GameState.resetStats,
    pathfindingGridDirty := false }

/-! ## Helper lemmas -/

lemma findRoad_map_set (l : List (Pos × List Direction)) (p : Pos) (ds : List Direction)
    (h : (findRoad l p).isSome) :
    findRoad (l.map fun e => if e.1 = p then (e.1, ds) else e) p = some ds := by
  induction l with
  | nil => simp [findRoad] at h
  | cons a t ih =>
    by_cases hp : a.1 = p
    · simp [findRoad, List.find?, hp]
    · have h2 : (findRoad t p).isSome := by
        simpa [findRoad, List.find?, hp] using h
      simpa [findRoad, List.find?, hp] using ih h2

lemma applyEdit_cases (gs : GameStateST) (op : EditOp) :
    GameState.applyEdit gs op = gs ∨
      (GameState.applyEdit gs op).pathfindingGridDirty = true := by
  cases op with
  | place row col =>
    simp only [GameState.applyEdit, GameState.placeRoad]
    split
    · left; rfl
    split
    · left; rfl
    split
    · left; rfl
    · right; rfl
  | remove row col =>
    simp only [GameState.applyEdit, GameState.removeRoad]
    split
    · left; rfl
    split
    · left; rfl
    · right; rfl
  | setDirections row col ds =>
    simp only [GameState.applyEdit, GameState.updateRoadDirections]
    cases hf : findRoad gs.roads ⟨row, col⟩ with
    | none => left; simp [hf]
    | some d => right; simp [hf]

lemma gridConsistent_applyEdit (env : PFEnv) (sys : SimSystem) (op : EditOp)
    (h : gridConsistent env sys) :
    gridConsistent env { sys with gs := GameState.applyEdit sys.gs op } := by
  rcases applyEdit_cases sys.gs op with heq | hdirty
  · intro hclean
    simp only [heq] at hclean ⊢
    exact h hclean
  · intro hclean
    simp only at hclean
    rw [hdirty] at hclean
    cases hclean

lemma gridConsistent_applyEdits (env : PFEnv) (sys : SimSystem) (ops : List EditOp)
    (h : gridConsistent env sys) :
    gridConsistent env (sys.applyEdits ops) := by
  induction ops generalizing sys with
  | nil => simpa [SimSystem.applyEdits] using h
  | cons op t ih =>
    have h1 := gridConsistent_applyEdit env sys op h
    have h2 := ih { sys with gs := GameState.applyEdit sys.gs op } h1
    simpa [SimSystem.applyEdits, List.foldl] using h2

lemma handlePathRequest_fresh (env : PFEnv) (sys : SimSystem) (s g : EntrancePos)
    (h : gridConsistent env sys) :
    (CarManager.handlePathRequest env sys s g).1 =
      PathFinder.findPathWithEntrances
        (PathFinder.updateGrid sys.gs.roadList env.obstacles env.rows env.cols)
        s g env.rows env.cols := by
  unfold CarManager.handlePathRequest
  by_cases hd : sys.gs.pathfindingGridDirty
  · simp [GameState.isPathfindingGridDirty, hd, CarManager.updatePathfindingGrid]
  · have hfalse : sys.gs.pathfindingGridDirty = false := by
      simpa using hd
    simp [GameState.isPathfindingGridDirty, hfalse, h hfalse]

lemma updateWaiting_pathless (c : Car) (hpath : c.path = []) (hw : c.waitTime ≤ 2000) :
    (Car.updateWaiting c 100).path = [] ∧ (Car.updateWaiting c 100).waitTime ≤ 2000 ∧
      (Car.updateWaiting c 100).state = c.state := by
  unfold Car.updateWaiting
  simp only [hpath, List.length_nil, lt_irrefl, false_and, and_false, if_false]
  have hno : ¬ (c.waitTime + 100 > GameConfig.maxWaitTime) := by
    unfold GameConfig.maxWaitTime
    omega
  rw [if_neg hno]
  split
  · refine ⟨by simp [hpath], by simp, by simp⟩
  · next h2 =>
    simp only [gt_iff_lt, not_lt] at h2
    refine ⟨by simp [hpath], by simp; omega, by simp⟩

lemma bfsAux_head (g : PFGrid) (goal s : Pos) :
    ∀ (fuel : Nat) (queue : List (List Pos)) (visited : List Pos) (res : List Pos),
      (∀ p ∈ queue, ∃ t, p = t ++ [s]) →
      PathFinder.bfsAux g goal fuel queue visited = some res →
      res.head? = some s := by
  intro fuel
  induction fuel with
  | zero =>
    intro queue visited res _ h
    simp [PathFinder.bfsAux] at h
  | succ n ih =>
    intro queue visited res hq h
    cases queue with
    | nil => simp [PathFinder.bfsAux] at h
    | cons path rest =>
      obtain ⟨t, rfl⟩ := hq path (List.mem_cons_self path rest)
      have hrest : ∀ p ∈ rest, ∃ u, p = u ++ [s] :=
        fun p hp => hq p (List.mem_cons_of_mem _ hp)
      cases t with
      | nil =>
        simp only [PathFinder.bfsAux, List.nil_append, List.head?_cons] at h
        by_cases hgoal : s = goal
        · rw [if_pos hgoal] at h
          cases h
          simp
        · rw [if_neg hgoal] at h
          refine ih _ _ _ ?_ h
          intro p hp
          rcases List.mem_append.mp hp with hp | hp
          · exact hrest p hp
          · obtain ⟨nb, hnb, rfl⟩ := List.mem_map.mp hp
            exact ⟨[nb], rfl⟩
      | cons a t2 =>
        simp only [PathFinder.bfsAux, List.cons_append, List.head?_cons] at h
        by_cases hgoal : a = goal
        · rw [if_pos hgoal] at h
          cases h
          simp
        · rw [if_neg hgoal] at h
          refine ih _ _ _ ?_ h
          intro p hp
          rcases List.mem_append.mp hp with hp | hp
          · exact hrest p hp
          · obtain ⟨nb, hnb, rfl⟩ := List.mem_map.mp hp
            exact ⟨nb :: a :: t2, rfl⟩

lemma findPath_head (g : PFGrid) (r c r2 c2 : Int) (p : List Pos)
    (h : PathFinder.findPath g r c r2 c2 = some p) :
    p.head? = some ⟨r, c⟩ := by
  unfold PathFinder.findPath at h
  split at h
  · exact Option.noConfusion h
  split at h
  · exact Option.noConfusion h
  split at h
  · exact Option.noConfusion h
  split at h
  · exact Option.noConfusion h
  cases hb : PathFinder.bfsAux g ⟨r2, c2⟩ (g.walkableCells.length + 2)
      [[⟨r, c⟩]] [⟨r, c⟩] with
  | none => rw [hb] at h; exact Option.noConfusion h
  | some path =>
    rw [hb] at h
    have h2 : (if path.length > 0 then some path else none) = some p := h
    by_cases hlen : path.length > 0
    · rw [if_pos hlen] at h2
      cases h2
      refine bfsAux_head g ⟨r2, c2⟩ ⟨r, c⟩ _ _ _ _ ?_ hb
      intro q hq
      simp only [List.mem_singleton] at hq
      exact ⟨[], by simp [hq]⟩
    · rw [if_neg hlen] at h2
      exact Option.noConfusion h2

/-! ## Claim theorems -/

/-- Claim C1. The claim states that a vehicle whose next path cell is occupied
by another vehicle transitions to Waiting instead of moving into it, so that
no cell is ever the committed position of two live vehicles. The code violates
this: with `carA` recorded at `(1,0)` in the occupancy index,
`CarManager.handleCollisionCheck` does detect the collision for `carB`, but
`Car.checkCollision` — the function `Car.updateMoving` actually consults —
discards the emitted result and returns `false`, so `carB` commits the move
into `(1,0)`; after the movement tween completes both live cars occupy
`(1,0)`, and `carB` never entered the Waiting state. -/
theorem c1_collision_check_ignored :
    CarManager.handleCollisionCheck mgrC1 carB ⟨1, 0⟩ = true ∧
    Car.checkCollision carB ⟨1, 0⟩ = false ∧
    (Car.updateMoving carB none).currentTween = some ⟨1, 0⟩ ∧
    (Car.updateMoving carB none).state ≠ CarState.waiting ∧
    ((Car.updateMoving carB none).onMoveComplete ⟨1, 0⟩).gridRow = carA.gridRow ∧
    ((Car.updateMoving carB none).onMoveComplete ⟨1, 0⟩).gridCol = carA.gridCol ∧
    ((Car.updateMoving carB none).onMoveComplete ⟨1, 0⟩).state = CarState.moving ∧
    carA.state = CarState.waiting := by
  decide

/-- Claim C2. The claim states that a path through a road annotated `[right]`
steps from it only to its right neighbour. The code violates this:
`PathFinder.updateGrid` records walkability only and never reads the
direction list, so on the corridor `roadsC2` the returned shortest path steps
*up* from the `[right]`-annotated road `(1,0)` to `(0,0)` — while the
repository's own `Road.getPathfindingConnections` (never invoked by path
queries) allows only the right neighbour `(1,1)` from that road. -/
theorem c2_direction_restriction_ignored :
    PathFinder.findPath gridC2 2 0 0 0 = some [⟨2, 0⟩, ⟨1, 0⟩, ⟨0, 0⟩] ∧
    Road.getPathfindingConnections ⟨1, 0, [.right]⟩ = [⟨1, 1, some .right⟩] ∧
    (⟨0, 0⟩ : Pos) ≠ ⟨1, 1⟩ := by
  decide

set_option maxRecDepth 4000 in
/-- Claim C3. The claim states that a vehicle that never receives a path
transitions to Failed with reason "timeout" exactly when its accumulated wait
exceeds `maxWaitTime` (10000 ms). The code violates this: in
`Car.updateWaiting` the periodic re-path branch resets `waitTime` to 0
whenever it passes 2000 ms, so with ordinary 100 ms ticks the 10000 ms check
never fires — after any number of ticks the pathless car is still Waiting,
even once its accumulated wait (`totalWaitTime`, here 15000 ms after 150
ticks) has long exceeded the threshold. -/
theorem c3_wait_timeout_never_fires :
    (∀ k : Nat, ((fun c => Car.updateWaiting c 100)^[k] pathlessCar).state =
      CarState.waiting) ∧
    ((fun c => Car.updateWaiting c 100)^[150] pathlessCar).totalWaitTime = 15000 := by
  constructor
  · have key : ∀ k : Nat,
        ((fun c => Car.updateWaiting c 100)^[k] pathlessCar).path = [] ∧
        ((fun c => Car.updateWaiting c 100)^[k] pathlessCar).waitTime ≤ 2000 ∧
        ((fun c => Car.updateWaiting c 100)^[k] pathlessCar).state = CarState.waiting := by
      intro k
      induction k with
      | zero => exact ⟨rfl, by decide, rfl⟩
      | succ n ih =>
        rw [Function.iterate_succ_apply']
        obtain ⟨h1, h2, h3⟩ := ih
        obtain ⟨g1, g2, g3⟩ := updateWaiting_pathless _ h1 h2
        exact ⟨g1, g2, g3.trans h3⟩
    exact fun k => (key k).2.2
  · decide

/-- Claim C4. Once the terminated count (`reached + failed`) reaches the
minimum sample size, any statistics state in which the failed count exceeds
the reached count is evaluated as LOST: the win comparison (checked first in
the source's `else if` chain) can never succeed when failures outnumber
successes, since the success rate is then below 1/2 < 0.8, so the lose
verdict is reached regardless of the threshold comparison. -/
theorem c4_lose_on_failed_majority (spawned reached failed : Nat) (nct : Option Nat)
    (hmin : CarManager.minCarsToCheck nct ≤ reached + failed)
    (hlt : reached < failed) :
    CarManager.checkEndConditions ⟨spawned, reached, failed⟩ nct = some .lost := by
  have hne : ¬ (reached + failed = 0) := by omega
  have hpos : (0 : ℚ) < ((reached + failed : Nat) : ℚ) := by
    exact_mod_cast Nat.pos_of_ne_zero hne
  unfold CarManager.checkEndConditions
  rw [if_pos hmin]
  have hrate : ¬ (CarManager.getSuccessRate ⟨spawned, reached, failed⟩ / 100 ≥
      GameConfig.successThreshold) := by
    simp only [CarManager.getSuccessRate, if_neg hne, GameConfig.successThreshold]
    rw [ge_iff_le, not_le, mul_div_assoc]
    norm_num
    have hpos2 : (0 : ℚ) < (reached : ℚ) + (failed : ℚ) := by push_cast at hpos; linarith
    rw [div_lt_iff₀ hpos2]
    have hc : (reached : ℚ) < (failed : ℚ) := by exact_mod_cast hlt
    linarith
  rw [if_neg hrate, if_pos hlt]

/-- Witness for C4 at the claim's example: failed = 6 > reached = 5 with the
minimum sample size (3 car types, so 9) reached gives LOST. -/
theorem c4_lose_on_failed_majority_witness :
    CarManager.minCarsToCheck (some 3) ≤ 5 + 6 ∧ 5 < 6 ∧
    CarManager.checkEndConditions ⟨11, 5, 6⟩ (some 3) = some .lost :=
  ⟨by decide, by decide, c4_lose_on_failed_majority 11 5 6 (some 3) (by decide) (by decide)⟩

/-- Claim C5. With reached = 8 and failed = 2 — success rate exactly 0.8 —
and the minimum sample size met, the evaluation reports WON: the comparison
against `successThreshold` is inclusive (`>=` in the source). (For these
counts the JavaScript double computation `(8/10)*100/100 >= 0.8` is exact, so
the rational model agrees with the engine.) -/
theorem c5_win_threshold_inclusive (spawned : Nat) (nct : Option Nat)
    (hmin : CarManager.minCarsToCheck nct ≤ 10) :
    CarManager.checkEndConditions ⟨spawned, 8, 2⟩ nct = some .won := by
  unfold CarManager.checkEndConditions
  rw [if_pos (show 8 + 2 ≥ CarManager.minCarsToCheck nct from hmin)]
  have h80 : CarManager.getSuccessRate ⟨spawned, 8, 2⟩ = 80 := by
    norm_num [CarManager.getSuccessRate]
  rw [if_pos (by rw [h80]; norm_num [GameConfig.successThreshold])]

/-- Witness for C5 with 3 car types (minimum sample size 9 ≤ 10). -/
theorem c5_win_threshold_inclusive_witness :
    CarManager.minCarsToCheck (some 3) ≤ 10 ∧
    CarManager.checkEndConditions ⟨10, 8, 2⟩ (some 3) = some .won :=
  ⟨by decide, c5_win_threshold_inclusive 10 (some 3) (by decide)⟩

/-- Claim C6, counterexample. The claim states that an entrance one cell
outside the grid is treated as connected only to its unique adjacent interior
cell, which then is the interior endpoint of the returned path. On `gridC6`
(roads down column 0 of a 3×2 grid) the entrance `(1,-1)` has `(1,0)` as its
unique in-bounds orthogonal neighbour, and `(1,0)` is walkable — yet the
returned path starts at `(0,0)`: the expanding ring search of
`findNearestValidPosition` scans the row above first. -/
theorem c6_counterexample :
    PathFinder.findPathWithEntrances gridC6 ⟨1, -1, true⟩ ⟨2, 0, false⟩ 3 2 =
      some [⟨0, 0⟩, ⟨1, 0⟩, ⟨2, 0⟩] ∧
    ((getAdjacentPositions 1 (-1)).filter fun n =>
        isValidGridPosition n.row n.col 3 2) = [⟨1, 0⟩] ∧
    gridC6.isWalkableAt 1 0 = true ∧
    ([⟨0, 0⟩, ⟨1, 0⟩, ⟨2, 0⟩] : List Pos).head? = some ⟨0, 0⟩ ∧
    (⟨0, 0⟩ : Pos) ≠ ⟨1, 0⟩ := by
  decide

/-- Claim C6, amended. What the code guarantees instead: when the start of a
query is an entrance/exit, the interior endpoint of any returned path is the
cell produced by `findNearestValidPosition` — the first in-bounds walkable
cell of an expanding ring search around the exterior cell (radius ascending,
then row offset, then column offset) — which need not be the adjacent
interior neighbour. -/
theorem c6_endpoint_is_nearest_walkable (g : PFGrid) (start goal : EntrancePos)
    (rows cols : Int) (p : List Pos)
    (hs : start.isEntrance = true)
    (h : PathFinder.findPathWithEntrances g start goal rows cols = some p) :
    ∃ s, PathFinder.findNearestValidPosition g start rows cols = some s ∧
      p.head? = some s := by
  unfold PathFinder.findPathWithEntrances at h
  simp only [hs, if_true] at h
  cases hn : PathFinder.findNearestValidPosition g start rows cols with
  | none => rw [hn] at h; exact Option.noConfusion h
  | some s =>
    rw [hn] at h
    refine ⟨s, rfl, ?_⟩
    cases he : (if goal.isEntrance = true
        then PathFinder.findNearestValidPosition g goal rows cols
        else some ⟨goal.row, goal.col⟩) with
    | none => rw [he] at h; exact Option.noConfusion h
    | some e =>
      rw [he] at h
      exact findPath_head g s.row s.col e.row e.col p h

/-- Witness for the amended C6 at the counterexample instance. -/
theorem c6_endpoint_is_nearest_walkable_witness :
    (EntrancePos.mk 1 (-1) true).isEntrance = true ∧
    ∃ s, PathFinder.findNearestValidPosition gridC6 ⟨1, -1, true⟩ 3 2 = some s ∧
      ([⟨0, 0⟩, ⟨1, 0⟩, ⟨2, 0⟩] : List Pos).head? = some s :=
  ⟨rfl, c6_endpoint_is_nearest_walkable gridC6 ⟨1, -1, true⟩ ⟨2, 0, false⟩ 3 2
    [⟨0, 0⟩, ⟨1, 0⟩, ⟨2, 0⟩] rfl (by decide)⟩

/-- Claim C7. Every road edit either leaves the state unchanged (when
rejected) or sets the dirty flag; and after any sequence of edits, a path
request from a consistent system answers the query against the grid freshly
built from the *current* road set — a stale graph is never queried after an
edit (the request rebuilds and clears the flag first whenever the flag is
set). -/
theorem c7_no_stale_graph_after_edit :
    (∀ (gs : GameStateST) (op : EditOp),
        GameState.applyEdit gs op = gs ∨
          (GameState.applyEdit gs op).pathfindingGridDirty = true) ∧
    ∀ (env : PFEnv) (sys : SimSystem) (ops : List EditOp) (s g : EntrancePos),
      gridConsistent env sys →
      (CarManager.handlePathRequest env (sys.applyEdits ops) s g).1 =
        PathFinder.findPathWithEntrances
          (PathFinder.updateGrid (sys.applyEdits ops).gs.roadList
            env.obstacles env.rows env.cols)
          s g env.rows env.cols :=
  ⟨applyEdit_cases, fun env sys ops s g h =>
    handlePathRequest_fresh env _ s g (gridConsistent_applyEdits env sys ops h)⟩

/-- Witness for C7: a fresh (dirty-flagged, hence vacuously consistent)
system, one road placement, then a path request. -/
theorem c7_no_stale_graph_after_edit_witness :
    gridConsistent envW sysW ∧
    (CarManager.handlePathRequest envW (sysW.applyEdits [.place 0 0])
        ⟨0, 0, false⟩ ⟨0, 0, false⟩).1 =
      PathFinder.findPathWithEntrances
        (PathFinder.updateGrid (SimSystem.applyEdits sysW [.place 0 0]).gs.roadList
          envW.obstacles envW.rows envW.cols)
        ⟨0, 0, false⟩ ⟨0, 0, false⟩ envW.rows envW.cols := by
  have hcons : gridConsistent envW sysW := by
    intro hclean
    simp [sysW, gsW] at hclean
  exact ⟨hcons, c7_no_stale_graph_after_edit.2 envW sysW [.place 0 0] _ _ hcons⟩

/-- Claim C8. Starting a simulation while one is already running, or with no
roads placed, is rejected synchronously: `startSimulation` returns `false`
and the entire game state is returned unchanged (no statistics reset, no mode
change). -/
theorem c8_invalid_start_rejected (gs : GameStateST) (now : Nat)
    (h : gs.isSimulating = true ∨ gs.roads = []) :
    GameState.startSimulation gs now = (false, gs) := by
  rcases h with h | h
  · simp [GameState.startSimulation, h]
  · by_cases hsim : gs.isSimulating
    · simp [GameState.startSimulation, hsim]
    · simp [GameState.startSimulation, hsim, h]

/-- Witness for C8 on the fresh no-roads state. -/
theorem c8_invalid_start_rejected_witness :
    (gsW.isSimulating = true ∨ gsW.roads = []) ∧
    GameState.startSimulation gsW 5 = (false, gsW) :=
  ⟨Or.inr rfl, c8_invalid_start_rejected gsW 5 (Or.inr rfl)⟩

/-- Claim C9. While a simulation is running, `placeRoad` and `removeRoad` are
rejected with no state change, but `updateRoadDirections` carries no
simulation guard: for any existing road it replaces the directions, marks the
pathfinding grid dirty and returns `true` mid-run. -/
theorem c9_direction_edit_unguarded (gs : GameStateST) (row col : Int)
    (ds : List Direction)
    (hsim : gs.isSimulating = true)
    (hroad : (findRoad gs.roads ⟨row, col⟩).isSome) :
    (GameState.updateRoadDirections gs row col ds).1 = true ∧
    findRoad (GameState.updateRoadDirections gs row col ds).2.roads ⟨row, col⟩ =
      some ds ∧
    (GameState.updateRoadDirections gs row col ds).2.pathfindingGridDirty = true ∧
    GameState.placeRoad gs row col = (false, gs) ∧
    GameState.removeRoad gs row col = (false, gs) := by
  obtain ⟨d0, hd0⟩ := Option.isSome_iff_exists.mp hroad
  refine ⟨?_, ?_, ?_, ?_, ?_⟩ <;>
    simp [GameState.updateRoadDirections, GameState.placeRoad, GameState.removeRoad,
      hd0, hsim, findRoad_map_set _ _ _ hroad]

/-- Witness for C9 on a running simulation with a road at `(2,3)`. -/
theorem c9_direction_edit_unguarded_witness :
    gsSimW.isSimulating = true ∧ (findRoad gsSimW.roads ⟨2, 3⟩).isSome ∧
    (GameState.updateRoadDirections gsSimW 2 3 [.right]).1 = true ∧
    findRoad (GameState.updateRoadDirections gsSimW 2 3 [.right]).2.roads ⟨2, 3⟩ =
      some [.right] ∧
    (GameState.updateRoadDirections gsSimW 2 3 [.right]).2.pathfindingGridDirty = true ∧
    GameState.placeRoad gsSimW 2 3 = (false, gsSimW) ∧
    GameState.removeRoad gsSimW 2 3 = (false, gsSimW) := by
  have h := c9_direction_edit_unguarded gsSimW 2 3 [.right] rfl (by decide)
  exact ⟨rfl, by decide, h.1, h.2.1, h.2.2.1, h.2.2.2.1, h.2.2.2.2⟩

/-- Claim C10. `getSuccessRate` is total: with no terminated cars it returns 0
(the division by zero is guarded), otherwise `100 × reached / (reached +
failed)`. -/
theorem c10_success_rate_total (spawned reached failed : Nat) :
    (reached + failed = 0 → CarManager.getSuccessRate ⟨spawned, reached, failed⟩ = 0) ∧
    (reached + failed ≠ 0 →
      CarManager.getSuccessRate ⟨spawned, reached, failed⟩ =
        100 * (reached : ℚ) / ((reached + failed : Nat) : ℚ)) := by
  constructor
  · intro h
    simp [CarManager.getSuccessRate, h]
  · intro h
    simp only [CarManager.getSuccessRate, if_neg h]
    rw [div_mul_eq_mul_div, mul_comm]

/-- Witness for C10: the zero guard at `(0,0)` and the formula at `(3,1)`. -/
theorem c10_success_rate_total_witness :
    CarManager.getSuccessRate ⟨0, 0, 0⟩ = 0 ∧
    CarManager.getSuccessRate ⟨4, 3, 1⟩ =
      100 * ((3 : Nat) : ℚ) / ((3 + 1 : Nat) : ℚ) :=
  ⟨(c10_success_rate_total 0 0 0).1 rfl, (c10_success_rate_total 4 3 1).2 (by decide)⟩

end Traffic
